import Mathlib

/-!
AuthApp, the browser-side session controller of `frontend/js/app.js`

A shallow embedding of the class `AuthApp`.  The controller mutates four
things: its own field `this.token`, the browser's `localStorage`, a handful
of DOM elements looked up by id, and the browser's timer queue.  All of them
are fields of one explicit `State`; every method is a function on it.

A method that can throw returns `Except State State`: `.ok` with the state
reached at its end, `.error` with the state reached when the exception left
it, so that what was written before the throw stays written.

The collaborators the source calls but does not define are modelled as
follows.

* `fetch` / `response.json()`: the answer of the server is an input of the
  handler (`FetchOutcome`); every request issued is appended to
  `State.requests`.
* `JSON.parse`, `JSON.stringify` and the quota of `localStorage` are a
  parameter (`Platform`).  Access to `localStorage` is granted: reads and
  removals succeed, a write may be refused with a `QuotaExceededError`.
* `ToString`, applied by template literals, by `setItem` and by the
  `textContent` setter, throws a `TypeError` on an object that has an own
  `toString` property (never callable in a value that came out of JSON).
* `setTimeout`: the callback is recorded in `State.timers` with its due
  time; `fire` runs one callback, `advanceTo` lets the clock run.
* `async` methods: each is run to completion against the answer of the
  server; events arriving while a request is in flight are not modelled.
* The page markup is not part of the source.  The model assumes what the
  code relies on: the elements carrying the class `form-container` are
  `#loginForm` and `#registerForm`, the elements carrying the class `alert`
  are `#loginAlert` and `#registerAlert`, and every id the code looks up
  exists.
-/

namespace AuthApp

/-! ## JavaScript values -/

/-- A JavaScript number, by the two observations the controller can make of
it: whether it is falsy (`0`, `-0`) and its `ToString` text. -/
structure JNum where
  falsy : Bool
  text : String

/-- The JavaScript values the controller handles: what `response.json()` and
`JSON.parse` produce, plus `undefined` (a missing property). -/
inductive JVal where
  | undefined
  | null
  | bool (b : Bool)
  | num (n : JNum)
  | str (s : String)
  | arr (xs : List JVal)
  | obj (fields : List (String × JVal))

/-- Whether an object has an own property `k`. -/
def hasOwn (fields : List (String × JVal)) (k : String) : Bool :=
  (fields.lookup k).isSome

mutual
/-- JavaScript `ToString`; `none` is a `TypeError`.  An object without an
own `toString` goes through `Object.prototype.toString`; with one (which is
not callable) neither it nor `valueOf` yields a primitive.  An array goes
through `Array.prototype.join`. -/
def toStr : JVal → Option String
  | .undefined => some "undefined"
  | .null => some "null"
  | .bool true => some "true"
  | .bool false => some "false"
  | .num n => some n.text
  | .str s => some s
  | .arr xs => joinElems xs
  | .obj fields => if hasOwn fields "toString" then none else some "[object Object]"
/-- The body of `Array.prototype.join(",")`. -/
def joinElems : List JVal → Option String
  | [] => some ""
  | [x] => elemStr x
  | x :: y :: rest =>
    match elemStr x, joinElems (y :: rest) with
    | some a, some b => some (a ++ "," ++ b)
    | _, _ => none
/-- One element of an array under `join`: `null` and `undefined` contribute
the empty string, anything else its `ToString`. -/
def elemStr : JVal → Option String
  | .undefined => some ""
  | .null => some ""
  | .bool true => some "true"
  | .bool false => some "false"
  | .num n => some n.text
  | .str s => some s
  | .arr xs => joinElems xs
  | .obj fields => if hasOwn fields "toString" then none else some "[object Object]"
end

/-- JavaScript `ToBoolean`. -/
def truthy : JVal → Bool
  | .undefined => false
  | .null => false
  | .bool b => b
  | .num n => !n.falsy
  | .str s => s != ""
  | .arr _ => true
  | .obj _ => true

/-- Whether a value is `null` or `undefined`. -/
def isNullish : JVal → Bool
  | .undefined => true
  | .null => true
  | _ => false

/-- Property read `v.k` for the property names the controller uses
(`access_token`, `user`, `detail`, `name`, `email`), none of which is defined
on a built-in prototype: a `TypeError` (`none`) on `null` and `undefined`,
the field of an object, `undefined` on everything else. -/
def getProp (v : JVal) (k : String) : Option JVal :=
  match v with
  | .undefined => none
  | .null => none
  | .obj fields =>
    match fields.lookup k with
    | some x => some x
    | none => some .undefined
  | _ => some .undefined

/-- A value that is a string or `null`: the result of `localStorage.getItem`
and of `FormData.get` on text inputs. -/
def ofNullable : Option String → JVal
  | some s => .str s
  | none => .null

/-- The text a node shows after `node.textContent = v`: `null` and
`undefined` give the empty text, anything else its `ToString`; `none` when
that throws. -/
def domText (v : JVal) : Option String :=
  if isNullish v then some "" else toStr v

/-! ## The state -/

/-- The two keys of `localStorage` the controller uses. -/
structure Storage where
  token : Option String
  user : Option String
deriving DecidableEq

/-- The names of the two keys. -/
inductive StoreKey where
  | token
  | user
deriving DecidableEq

/-- The platform: `JSON.parse` (on text; `none` is a `SyntaxError`),
`JSON.stringify` (on a value other than `undefined`), and whether
`localStorage` accepts the write of a value under a key, given what it holds
(a refused write is a `QuotaExceededError`). -/
structure Platform where
  parse : String → Option JVal
  stringify : JVal → String
  accepts : Storage → StoreKey → String → Bool

/-- Value of `JSON.stringify(v)` once coerced to text by `setItem`:
`JSON.stringify(undefined)` is `undefined`, stored as the text
`"undefined"`. -/
def stringifyForStore (P : Platform) : JVal → String
  | .undefined => "undefined"
  | v => P.stringify v

/-- Value of `JSON.parse(localStorage.getItem(k))`: `getItem` answers `null`
for an absent key, which `JSON.parse` reads as the text `"null"`. -/
def parseStored (P : Platform) : Option String → Option JVal
  | some s => P.parse s
  | none => P.parse "null"

/-- Call of `localStorage.setItem(key, value)` on a value already converted
to text; `none` when the write is refused, and then nothing is written. -/
def setItem (P : Platform) (key : StoreKey) (value : String) (st : Storage) :
    Option Storage :=
  if P.accepts st key value then
    match key with
    | .token => some { st with token := some value }
    | .user => some { st with user := some value }
  else none

/-- Call of `localStorage.removeItem(key)`. -/
def removeItem (key : StoreKey) (st : Storage) : Storage :=
  match key with
  | .token => { st with token := none }
  | .user => { st with user := none }

/-- The ids of the two alert elements. -/
inductive AlertId where
  | loginAlert
  | registerAlert
deriving DecidableEq

/-- An alert element: its `className` as last assigned, its text, and
whether its class list holds `show`. -/
structure AlertEl where
  className : String
  textContent : String
  shown : Bool
deriving DecidableEq

/-- A submit button with the `innerHTML` of its `.btn-text` child. -/
structure Button where
  disabled : Bool
  btnText : String
deriving DecidableEq

/-- A request handed to `fetch`. -/
structure Request where
  url : String
  method : String
  headers : List (String × String)
  body : Option String
deriving DecidableEq

/-- The callbacks the controller hands to `setTimeout`. -/
inductive TimerAction where
  | hideAlert (id : AlertId)
  | loginDone
  | registerDone
deriving DecidableEq

/-- A pending timer. -/
structure Timer where
  due : Nat
  action : TimerAction
deriving DecidableEq

/-- Everything the controller reads or writes. -/
structure State where
  token : JVal
  store : Storage
  loginFormActive : Bool
  registerFormActive : Bool
  dashboardActive : Bool
  loginAlert : AlertEl
  registerAlert : AlertEl
  loginBtn : Button
  registerBtn : Button
  userName : String
  userEmail : String
  registerFormResets : Nat
  requests : List Request
  timers : List Timer
  now : Nat

/-- What a `fetch` followed by `response.json()` can come to: the request
throws, or a response arrives with a status and a body that parses
(`some`) or not (`none`). -/
inductive FetchOutcome where
  | throws
  | response (status : Nat) (body : Option JVal)

/-- The flag `response.ok`: the status is in 200..299. -/
def statusOk (status : Nat) : Bool :=
  decide (200 ≤ status ∧ status ≤ 299)

/-- The fields `FormData.get` reads off the login form. -/
structure LoginSubmission where
  email : Option String
  password : Option String

/-- The fields `FormData.get` reads off the register form. -/
structure RegisterSubmission where
  name : Option String
  email : Option String
  password : Option String
  confirmPassword : Option String

/-- The field `this.apiUrl`. -/
def apiUrl : String := "http://localhost:8000"

/-! ## The methods -/

/-- The state reached by a block, whether it ran to its end or threw. -/
def settle : Except State State → State
  | .ok s => s
  | .error s => s

/-- Call of `setTimeout(cb, delay)`. -/
def setTimeout (a : TimerAction) (delay : Nat) (s : State) : State :=
  { s with timers := s.timers ++ [{ due := s.now + delay, action := a }] }

/-- Call of `fetch(req)`: the request is issued. -/
def fetch (r : Request) (s : State) : State :=
  { s with requests := s.requests ++ [r] }

/-- Read of `document.getElementById(alertId)`. -/
def getAlert (s : State) : AlertId → AlertEl
  | .loginAlert => s.loginAlert
  | .registerAlert => s.registerAlert

/-- Write back of an alert element. -/
def setAlert (id : AlertId) (a : AlertEl) (s : State) : State :=
  match id with
  | .loginAlert => { s with loginAlert := a }
  | .registerAlert => { s with registerAlert := a }

/-- Method `clearAlerts`. -/
def clearAlerts (s : State) : State :=
  { s with
    loginAlert := { s.loginAlert with shown := false }
    registerAlert := { s.registerAlert with shown := false } }

/-- Method `showForm`. -/
def showForm (formType : String) (s : State) : State :=
  let s1 := { s with loginFormActive := false, registerFormActive := false }
  let s2 := { s1 with dashboardActive := false }
  let s3 :=
    if formType = "login" then { s2 with loginFormActive := true }
    else if formType = "register" then { s2 with registerFormActive := true }
    else s2
  clearAlerts s3

/-- Method `showDashboard`. -/
def showDashboard (s : State) : State :=
  let s1 := { s with loginFormActive := false, registerFormActive := false }
  { s1 with dashboardActive := true }

/-- Method `showAlert`.  Assigning `className` replaces the whole class
list, `show` included; the assignment of `textContent` throws when the
message cannot be converted to text. -/
def showAlert (alertId : AlertId) (message : JVal) (type : String) (s : State) :
    Except State State :=
  let s1 := setAlert alertId
    { getAlert s alertId with className := "alert " ++ type, shown := false } s
  match domText message with
  | none => .error s1
  | some text =>
    let s2 := setAlert alertId { getAlert s1 alertId with textContent := text } s1
    let s3 := setAlert alertId { getAlert s2 alertId with shown := true } s2
    .ok (setTimeout (.hideAlert alertId) 5000 s3)

/-- Method `setLoading`, on the button whose id is `btnId`. -/
def setLoading (btnId : String) (btn : Button) (isLoading : Bool) : Button :=
  if isLoading then
    { btn with disabled := true, btnText := "<span class=\"loading\"></span>" }
  else
    { btn with disabled := false,
               btnText := if btnId = "loginBtn" then "Iniciar Sesión" else "Registrarse" }

/-- Method `loadUserData`.  It throws when `JSON.parse` rejects the stored
text and when `user.name` or `user.email` cannot be converted to text. -/
def loadUserData (P : Platform) (s : State) : Except State State :=
  match parseStored P s.store.user with
  | none => .error s
  | some user =>
    if truthy user then
      match getProp user "name" with
      | none => .error s
      | some n =>
        match domText n with
        | none => .error s
        | some nameText =>
          let s1 := { s with userName := nameText }
          match getProp user "email" with
          | none => .error s1
          | some e =>
            match domText e with
            | none => .error s1
            | some emailText => .ok { s1 with userEmail := emailText }
    else .ok s

/-- Method `handleLogout`. -/
def handleLogout (s : State) : State :=
  let s1 := { s with store := removeItem .token s.store }
  let s2 := { s1 with store := removeItem .user s1.store }
  let s3 := { s2 with token := .null }
  showForm "login" s3

/-- The `try` block of `handleLogin`. -/
def handleLoginTry (P : Platform) (e : LoginSubmission) (o : FetchOutcome) (s : State) :
    Except State State :=
  let s1 := { s with loginBtn := setLoading "loginBtn" s.loginBtn true }
  let data := JVal.obj [("email", ofNullable e.email), ("password", ofNullable e.password)]
  let s2 := fetch
    { url := apiUrl ++ "/auth/login", method := "POST",
      headers := [("Content-Type", "application/json")],
      body := some (P.stringify data) } s1
  match o with
  | .throws => .error s2
  | .response _ none => .error s2
  | .response status (some result) =>
    if statusOk status then
      match getProp result "access_token" with
      | none => .error s2
      | some tok =>
        match toStr tok with
        | none => .error s2
        | some tokText =>
          match setItem P .token tokText s2.store with
          | none => .error s2
          | some st3 =>
            let s3 := { s2 with store := st3 }
            match getProp result "user" with
            | none => .error s3
            | some u =>
              match setItem P .user (stringifyForStore P u) s3.store with
              | none => .error s3
              | some st4 =>
                let s4 := { s3 with store := st4 }
                let s5 := { s4 with token := tok }
                match showAlert .loginAlert (.str "Inicio de sesión exitoso") "success" s5 with
                | .error s6 => .error s6
                | .ok s6 => .ok (setTimeout .loginDone 1000 s6)
    else
      match getProp result "detail" with
      | none => .error s2
      | some d =>
        showAlert .loginAlert (if truthy d then d else .str "Error al iniciar sesión") "error" s2

/-- Method `handleLogin`, run to completion against the server answer `o`:
the `try` block, the `catch` block when it threw, the `finally` block. -/
def handleLogin (P : Platform) (e : LoginSubmission) (o : FetchOutcome) (s : State) : State :=
  let s1 :=
    match handleLoginTry P e o s with
    | .ok s2 => s2
    | .error s2 =>
      settle (showAlert .loginAlert (.str "Error de conexión con el servidor") "error" s2)
  { s1 with loginBtn := setLoading "loginBtn" s1.loginBtn false }

/-- The `try` block of `handleRegister`; its `return` ends it as `.ok`. -/
def handleRegisterTry (P : Platform) (e : RegisterSubmission) (o : FetchOutcome) (s : State) :
    Except State State :=
  let s1 := { s with registerBtn := setLoading "registerBtn" s.registerBtn true }
  let password := e.password
  let confirmPassword := e.confirmPassword
  if password ≠ confirmPassword then
    showAlert .registerAlert (.str "Las contraseñas no coinciden") "error" s1
  else
    let data := JVal.obj [("name", ofNullable e.name), ("email", ofNullable e.email),
      ("password", ofNullable password)]
    let s2 := fetch
      { url := apiUrl ++ "/auth/register", method := "POST",
        headers := [("Content-Type", "application/json")],
        body := some (P.stringify data) } s1
    match o with
    | .throws => .error s2
    | .response _ none => .error s2
    | .response status (some result) =>
      if statusOk status then
        match showAlert .registerAlert
          (.str "Registro exitoso. Puedes iniciar sesión ahora.") "success" s2 with
        | .error s3 => .error s3
        | .ok s3 => .ok (setTimeout .registerDone 2000 s3)
      else
        match getProp result "detail" with
        | none => .error s2
        | some d =>
          showAlert .registerAlert (if truthy d then d else .str "Error en el registro")
            "error" s2

/-- Method `handleRegister`, run to completion against the server answer
`o` (which is not consulted when the passwords differ). -/
def handleRegister (P : Platform) (e : RegisterSubmission) (o : FetchOutcome) (s : State) :
    State :=
  let s1 :=
    match handleRegisterTry P e o s with
    | .ok s2 => s2
    | .error s2 =>
      settle (showAlert .registerAlert (.str "Error de conexión con el servidor") "error" s2)
  { s1 with registerBtn := setLoading "registerBtn" s1.registerBtn false }

/-- Method `verifyToken`, run to completion against the server answer `o`
(the body of the response is never read).  The header text is built before
`fetch` is called; when that throws no request is issued. -/
def verifyToken (P : Platform) (o : FetchOutcome) (s : State) : State :=
  match toStr s.token with
  | none => handleLogout s
  | some tokText =>
    let s1 := fetch
      { url := apiUrl ++ "/auth/me", method := "GET",
        headers := [("Authorization", "Bearer " ++ tokText)],
        body := none } s
    match o with
    | .throws => handleLogout s1
    | .response status _ =>
      if statusOk status then
        match loadUserData P (showDashboard s1) with
        | .ok s3 => s3
        | .error s3 => handleLogout s3
      else handleLogout s1

/-- Method `checkAuth`. -/
def checkAuth (P : Platform) (o : FetchOutcome) (s : State) : State :=
  if truthy s.token then verifyToken P o s else s

/-- Method `init`: `bindEvents` registers the listeners and changes nothing
the model tracks, `checkAuth` follows. -/
def init (P : Platform) (o : FetchOutcome) (s : State) : State :=
  checkAuth P o s

/-- The constructor of `AuthApp`: `this.token` is read from the store (the
value it had in `s` is not consulted), then `init` runs. -/
def construct (P : Platform) (o : FetchOutcome) (s : State) : State :=
  let s1 := { s with token := ofNullable s.store.token }
  init P o s1

/-! ## Timers -/

/-- Run of one `setTimeout` callback.  An exception escaping a callback ends
it; the state keeps what the callback did before. -/
def fire (P : Platform) (a : TimerAction) (s : State) : State :=
  match a with
  | .hideAlert id => setAlert id { getAlert s id with shown := false } s
  | .loginDone => settle (loadUserData P (showDashboard s))
  | .registerDone =>
    let s1 := showForm "login" s
    { s1 with registerFormResets := s1.registerFormResets + 1 }

/-- The pending timer that fires next: the least due time, the one set
first among equals. -/
def earliest : List Timer → Option Timer
  | [] => none
  | x :: xs =>
    match earliest xs with
    | none => some x
    | some y => if y.due < x.due then some y else some x

/-- Fire, in order, the timers due at or before `t`; `fuel` bounds the
number of callbacks run. -/
def runDue (P : Platform) : Nat → Nat → State → State
  | 0, _, s => s
  | fuel + 1, t, s =>
    match earliest s.timers with
    | none => s
    | some tm =>
      if tm.due ≤ t then
        runDue P fuel t
          (fire P tm.action { s with timers := s.timers.erase tm, now := max s.now tm.due })
      else s

/-- Let the clock run to `t`.  No callback sets a timer, so the number of
pending timers is fuel enough. -/
def advanceTo (P : Platform) (t : Nat) (s : State) : State :=
  let s1 := runDue P s.timers.length t s
  { s1 with now := max s1.now t }

/-! ## Vocabulary of the properties -/

/-- Number of views carrying the class `active`. -/
def activeCount (s : State) : Nat :=
  s.loginFormActive.toNat + s.registerFormActive.toNat + s.dashboardActive.toNat

/-- Whether the request was answered with a status in 200..299. -/
def answered2xx : FetchOutcome → Bool
  | .throws => false
  | .response status _ => statusOk status

/-- The operations of the controller: its methods as the page invokes them,
and the callbacks of the timers they set. -/
inductive Op where
  | construct (o : FetchOutcome)
  | showForm (formType : String)
  | showDashboard
  | handleLogin (e : LoginSubmission) (o : FetchOutcome)
  | handleRegister (e : RegisterSubmission) (o : FetchOutcome)
  | handleLogout
  | verifyToken (o : FetchOutcome)
  | timer (a : TimerAction)

/-- Effect of one operation. -/
def step (P : Platform) : Op → State → State
  | .construct o, s => construct P o s
  | .showForm formType, s => showForm formType s
  | .showDashboard, s => showDashboard s
  | .handleLogin e o, s => handleLogin P e o s
  | .handleRegister e o, s => handleRegister P e o s
  | .handleLogout, s => handleLogout s
  | .verifyToken o, s => verifyToken P o s
  | .timer a, s => fire P a s

/-- The operations whose `showForm` argument, if any, is one of the two the
controller itself passes. -/
def knownForm : Op → Prop
  | .showForm formType => formType = "login" ∨ formType = "register"
  | _ => True

/-- The in-memory token agrees with the persisted `token` key: it is absent
(`null` or `undefined`) when the key is absent, and otherwise it is the
stored string. -/
def sessionAgrees (s : State) : Prop :=
  match s.store.token, s.token with
  | none, .null => True
  | none, .undefined => True
  | some t, .str x => x = t
  | _, _ => False

/-- The logins that keep the two copies of the token in step.  A login
answered 2xx whose `access_token` the store accepts must bring a string
`access_token`, and the store must then accept the `user` text as well;
every other operation qualifies. -/
def tokenKept (P : Platform) (s : State) : Op → Prop
  | .handleLogin _ (.response status (some body)) =>
    statusOk status = true →
      ∀ v tokText st, getProp body "access_token" = some v → toStr v = some tokText →
        setItem P .token tokText s.store = some st →
          v = JVal.str tokText ∧
          ∀ u, getProp body "user" = some u →
            (setItem P .user (stringifyForStore P u) st).isSome = true
  | _ => True

/-! ## Examples -/

/-- A user record as the login endpoint returns it. -/
def demoUser : JVal :=
  .obj [("name", .str "Ana"), ("email", .str "ana@example.com")]

/-- The JSON text of `demoUser`. -/
def demoUserText : String :=
  "\x7b\"name\":\"Ana\",\"email\":\"ana@example.com\"\x7d"

/-- The JSON text of the body `handleLogin` sends for `demoLogin`. -/
def demoLoginText : String :=
  "\x7b\"email\":\"ana@example.com\",\"password\":\"secreto1\"\x7d"

/-- A user record whose `name` is an object with an own `toString`. -/
def demoOddUser : JVal :=
  .obj [("name", .obj [("toString", .num { falsy := false, text := "1" })]),
        ("email", .str "e")]

/-- The JSON text of `demoOddUser`. -/
def demoOddUserText : String :=
  "\x7b\"name\":\x7b\"toString\":1\x7d,\"email\":\"e\"\x7d"

/-- Space taken by the two entries once `value` is written under `key`: the
length of each key present plus the length of its value. -/
def sizeAfter (st : Storage) (key : StoreKey) (value : String) : Nat :=
  match key with
  | .token => (5 + value.length) + (match st.user with | some u => 4 + u.length | none => 0)
  | .user => (match st.token with | some v => 5 + v.length | none => 0) + (4 + value.length)

/-- A platform for the examples.  `parse` and `stringify` are given by
table: `parse` reads the text `null`, the text of `demoUser` and the text of
`demoOddUser` and rejects every other text (the examples apply it to these
three and to the text `undefined`, which `JSON.parse` rejects as well);
`stringify` is `JSON.stringify` on `demoUser` and on the body sent for
`demoLogin`, the two values the examples apply it to.  The store accepts a
write when the two entries then fit in `capacity`, the part of the quota the
rest of the origin leaves free. -/
def demoPlatform (capacity : Nat) : Platform where
  parse := fun s =>
    if s = "null" then some .null
    else if s = demoUserText then some demoUser
    else if s = demoOddUserText then some demoOddUser
    else none
  stringify := fun v =>
    match v with
    | .obj [("name", .str "Ana"), ("email", .str "ana@example.com")] => demoUserText
    | .obj [("email", .str "ana@example.com"), ("password", .str "secreto1")] => demoLoginText
    | _ => "null"
  accepts := fun st key value => decide (sizeAfter st key value ≤ capacity)

/-- A browser with room left in the store. -/
def demoJson : Platform := demoPlatform 5000000

/-- A browser whose store takes nothing more (the origin has used up its
quota, or the quota is zero as in some private modes). -/
def demoFull : Platform := demoPlatform 0

/-- A browser whose store has room left for the token and not for the user
record. -/
def demoTight : Platform := demoPlatform 20

/-- The page as first loaded, nobody logged in: the login form is the
active view, the clock is at 0. -/
def demoState : State where
  token := .null
  store := { token := none, user := none }
  loginFormActive := true
  registerFormActive := false
  dashboardActive := false
  loginAlert := { className := "alert", textContent := "", shown := false }
  registerAlert := { className := "alert", textContent := "", shown := false }
  loginBtn := { disabled := false, btnText := "Iniciar Sesión" }
  registerBtn := { disabled := false, btnText := "Registrarse" }
  userName := ""
  userEmail := ""
  registerFormResets := 0
  requests := []
  timers := []
  now := 0

/-- A register submission whose two password fields differ. -/
def demoMismatch : RegisterSubmission where
  name := some "Ana"
  email := some "ana@example.com"
  password := some "secreto1"
  confirmPassword := some "secreto2"

/-- A login submission. -/
def demoLogin : LoginSubmission where
  email := some "ana@example.com"
  password := some "secreto1"

/-- The body of a rejection by the server. -/
def demoRejection : JVal :=
  .obj [("detail", .str "Credenciales incorrectas")]

/-- A returning visitor: the page as loaded with a session persisted by an
earlier login. -/
def demoReturning : State :=
  { demoState with
    token := .str "tok-123"
    store := { token := some "tok-123", user := some demoUserText } }

/-- The body of a successful login answer. -/
def demoLoginBody : JVal :=
  .obj [("access_token", .str "tok-123"), ("user", demoUser)]

/-- A persisted session whose `user` key holds the text `undefined`, which is
what `handleLogin` stores when a 2xx login body has no `user` field. -/
def demoCorrupt : State :=
  { demoState with
    token := .str "tok-123"
    store := { token := some "tok-123", user := some "undefined" } }

/-- A persisted session whose `user` key holds the text of `demoOddUser`. -/
def demoOdd : State :=
  { demoState with
    token := .str "tok-123"
    store := { token := some "tok-123", user := some demoOddUserText } }

/-- Two login attempts rejected by the server, the second 3000 ms after the
first; the state is the one right after the second rejection was shown. -/
def demoTwoRejections : State :=
  handleLogin demoJson demoLogin (.response 401 (some demoRejection))
    (advanceTo demoJson 3000
      (handleLogin demoJson demoLogin (.response 401 (some demoRejection)) demoState))

/-! ## Theorems -/

/-- The text of a string is the string. -/
theorem domText_str (m : String) : domText (.str m) = some m := rfl

/-- The text of `undefined` is empty. -/
theorem domText_undefined : domText .undefined = some "" := rfl

/-- The method `showAlert` on a string message does not throw. -/
theorem showAlert_str (id : AlertId) (m ty : String) (s : State) :
    showAlert id (.str m) ty s =
      .ok (setTimeout (.hideAlert id) 5000
        (setAlert id { className := "alert " ++ ty, textContent := m, shown := true } s)) := by
  cases id <;> rfl

/-- C1. When the `password` and `confirmPassword` fields of a registration
submission differ, `handleRegister` issues no request, shows the error alert
"Las contraseñas no coinciden" on `registerAlert`, and leaves the persisted
token, the persisted user and the in-memory token as they were. -/
theorem handleRegister_mismatch_is_local (P : Platform) (e : RegisterSubmission)
    (o : FetchOutcome) (s : State) (h : e.password ≠ e.confirmPassword) :
    (handleRegister P e o s).requests = s.requests ∧
    (handleRegister P e o s).registerAlert =
      { className := "alert error", textContent := "Las contraseñas no coinciden",
        shown := true } ∧
    (handleRegister P e o s).store = s.store ∧
    (handleRegister P e o s).token = s.token := by
  simp [handleRegister, handleRegisterTry, h, showAlert_str, setAlert, setTimeout]

/-- C1, at an example: Ana mistypes the confirmation. -/
theorem handleRegister_mismatch_is_local_witness :
    demoMismatch.password ≠ demoMismatch.confirmPassword ∧
    ((handleRegister demoJson demoMismatch .throws demoState).requests = demoState.requests ∧
    (handleRegister demoJson demoMismatch .throws demoState).registerAlert =
      { className := "alert error", textContent := "Las contraseñas no coinciden",
        shown := true } ∧
    (handleRegister demoJson demoMismatch .throws demoState).store = demoState.store ∧
    (handleRegister demoJson demoMismatch .throws demoState).token = demoState.token) :=
  ⟨by decide, handleRegister_mismatch_is_local demoJson demoMismatch .throws demoState
    (by decide)⟩

/-- C3. From any state, `handleLogout` ends with neither `token` nor `user`
persisted, the in-memory token `null`, the login form the only active view,
and no request issued. -/
theorem handleLogout_clears_session (s : State) :
    (handleLogout s).store.token = none ∧
    (handleLogout s).store.user = none ∧
    (handleLogout s).token = .null ∧
    (handleLogout s).loginFormActive = true ∧
    (handleLogout s).registerFormActive = false ∧
    (handleLogout s).dashboardActive = false ∧
    (handleLogout s).requests = s.requests := by
  simp [handleLogout, removeItem, showForm, clearAlerts]

/-- C7. Whatever the server answers (2xx, non-2xx, a thrown request, a body
that does not parse) and also on the local password-mismatch abort, the
submit button of the form is enabled when the handler completes and carries
its label again: "Iniciar Sesión" for login, "Registrarse" for register. -/
theorem submit_button_restored (P : Platform) (l : LoginSubmission) (r : RegisterSubmission)
    (o : FetchOutcome) (s : State) :
    (handleLogin P l o s).loginBtn = { disabled := false, btnText := "Iniciar Sesión" } ∧
    (handleRegister P r o s).registerBtn = { disabled := false, btnText := "Registrarse" } := by
  constructor
  · simp [handleLogin, setLoading]
  · simp [handleRegister, setLoading]

/-- What `showAlert` leaves alone and what it adds when it runs to its end:
one timer, hiding the alert 5000 ms later. -/
theorem showAlert_ok (id : AlertId) (m : JVal) (ty : String) (s s1 : State)
    (h : showAlert id m ty s = .ok s1) :
    s1.store = s.store ∧ s1.token = s.token ∧
    s1.loginFormActive = s.loginFormActive ∧
    s1.registerFormActive = s.registerFormActive ∧
    s1.dashboardActive = s.dashboardActive ∧
    s1.timers = s.timers ++ [{ due := s.now + 5000, action := .hideAlert id }] ∧
    s1.now = s.now := by
  unfold showAlert at h
  cases hd : domText m with
  | none => simp [hd] at h
  | some text =>
    simp only [hd] at h
    injection h with h
    subst h
    cases id <;> simp [setAlert, setTimeout]

/-- What `showAlert` leaves alone when it throws: it has set no timer. -/
theorem showAlert_error (id : AlertId) (m : JVal) (ty : String) (s s1 : State)
    (h : showAlert id m ty s = .error s1) :
    s1.store = s.store ∧ s1.token = s.token ∧
    s1.loginFormActive = s.loginFormActive ∧
    s1.registerFormActive = s.registerFormActive ∧
    s1.dashboardActive = s.dashboardActive ∧
    s1.timers = s.timers ∧
    s1.now = s.now := by
  unfold showAlert at h
  cases hd : domText m with
  | some text => simp [hd] at h
  | none =>
    simp only [hd] at h
    injection h with h
    subst h
    cases id <;> simp [setAlert]

/-- A login that is not answered 2xx leaves the store and the in-memory
token alone and sets one timer, the one hiding the alert. -/
theorem handleLogin_not2xx_frame (P : Platform) (e : LoginSubmission)
    (o : FetchOutcome) (s : State) (h : answered2xx o = false) :
    (handleLogin P e o s).store = s.store ∧ (handleLogin P e o s).token = s.token ∧
    (handleLogin P e o s).timers =
      s.timers ++ [{ due := s.now + 5000, action := .hideAlert .loginAlert }] := by
  cases o with
  | throws =>
    simp [handleLogin, handleLoginTry, showAlert_str, settle, setAlert, setTimeout, fetch]
  | response status body =>
    have hs : statusOk status = false := h
    cases body with
    | none =>
      simp [handleLogin, handleLoginTry, showAlert_str, settle, setAlert, setTimeout, fetch]
    | some result =>
      cases hd : getProp result "detail" with
      | none =>
        simp [handleLogin, handleLoginTry, hs, hd, showAlert_str, settle, setAlert,
          setTimeout, fetch]
      | some d =>
        simp only [handleLogin, handleLoginTry, hs, hd]
        split
        · rename_i s2 h2
          have hk := showAlert_ok _ _ _ _ _ h2
          simp [hk.1, hk.2.1, hk.2.2.2.2.2.1, fetch]
        · rename_i s2 h2
          have hk := showAlert_error _ _ _ _ _ h2
          simp [showAlert_str, settle, setAlert, setTimeout, hk.1, hk.2.1, hk.2.2.2.2.2.1,
            hk.2.2.2.2.2.2, fetch]

/-- C2. When the login request is answered with a status outside 200..299
(whatever the body, also one that does not parse) or throws, `handleLogin`
leaves the persisted `token` and `user` and the in-memory token as they
were, and the only timer it sets is the one hiding the alert: no transition
to the dashboard is scheduled. -/
theorem handleLogin_failure_keeps_session (P : Platform) (e : LoginSubmission)
    (o : FetchOutcome) (s : State) (h : answered2xx o = false) :
    (handleLogin P e o s).store = s.store ∧
    (handleLogin P e o s).token = s.token ∧
    (handleLogin P e o s).timers =
      s.timers ++ [{ due := s.now + 5000, action := .hideAlert .loginAlert }] :=
  handleLogin_not2xx_frame P e o s h

/-- C2, at an example: the server answers 401 with a `detail`. -/
theorem handleLogin_failure_keeps_session_witness :
    answered2xx (.response 401 (some demoRejection)) = false ∧
    ((handleLogin demoJson demoLogin (.response 401 (some demoRejection)) demoState).store =
      demoState.store ∧
    (handleLogin demoJson demoLogin (.response 401 (some demoRejection)) demoState).token =
      demoState.token ∧
    (handleLogin demoJson demoLogin (.response 401 (some demoRejection)) demoState).timers =
      demoState.timers ++
        [{ due := demoState.now + 5000, action := .hideAlert .loginAlert }]) :=
  ⟨by decide, handleLogin_failure_keeps_session demoJson demoLogin
    (.response 401 (some demoRejection)) demoState (by decide)⟩

/-- C4. When the `/auth/me` request is answered with a status outside
200..299 or throws, `verifyToken` ends logged out: neither `token` nor
`user` persisted, the in-memory token `null`, the login form the only active
view; and nothing is shown for the failure: both alerts are hidden, their
class and text are untouched, no timer is set. -/
theorem verifyToken_failure_logs_out (P : Platform) (o : FetchOutcome) (s : State)
    (h : answered2xx o = false) :
    (verifyToken P o s).store.token = none ∧
    (verifyToken P o s).store.user = none ∧
    (verifyToken P o s).token = .null ∧
    (verifyToken P o s).loginFormActive = true ∧
    (verifyToken P o s).registerFormActive = false ∧
    (verifyToken P o s).dashboardActive = false ∧
    (verifyToken P o s).loginAlert = { s.loginAlert with shown := false } ∧
    (verifyToken P o s).registerAlert = { s.registerAlert with shown := false } ∧
    (verifyToken P o s).timers = s.timers := by
  cases ht : toStr s.token with
  | none => simp [verifyToken, ht, handleLogout, removeItem, showForm, clearAlerts]
  | some tokText =>
    cases o with
    | throws => simp [verifyToken, ht, handleLogout, removeItem, showForm, clearAlerts, fetch]
    | response status body =>
      have hs : statusOk status = false := h
      simp [verifyToken, ht, hs, handleLogout, removeItem, showForm, clearAlerts, fetch]

/-- C4, at an example: the persisted token has expired and the server
answers 401. -/
theorem verifyToken_failure_logs_out_witness :
    answered2xx (.response 401 none) = false ∧
    ((verifyToken demoJson (.response 401 none) demoReturning).store.token = none ∧
    (verifyToken demoJson (.response 401 none) demoReturning).store.user = none ∧
    (verifyToken demoJson (.response 401 none) demoReturning).token = .null ∧
    (verifyToken demoJson (.response 401 none) demoReturning).loginFormActive = true ∧
    (verifyToken demoJson (.response 401 none) demoReturning).registerFormActive = false ∧
    (verifyToken demoJson (.response 401 none) demoReturning).dashboardActive = false ∧
    (verifyToken demoJson (.response 401 none) demoReturning).loginAlert =
      { demoReturning.loginAlert with shown := false } ∧
    (verifyToken demoJson (.response 401 none) demoReturning).registerAlert =
      { demoReturning.registerAlert with shown := false } ∧
    (verifyToken demoJson (.response 401 none) demoReturning).timers = demoReturning.timers) :=
  ⟨by decide, verifyToken_failure_logs_out demoJson (.response 401 none) demoReturning
    (by decide)⟩

/-- The method `loadUserData` on a `user` key whose text parses to an object
with string fields `name` and `email`: it shows them and does not throw. -/
theorem loadUserData_object (P : Platform) (s : State) (fields : List (String × JVal))
    (name email : String)
    (hp : parseStored P s.store.user = some (.obj fields))
    (hname : getProp (.obj fields) "name" = some (.str name))
    (hemail : getProp (.obj fields) "email" = some (.str email)) :
    loadUserData P s = .ok { s with userName := name, userEmail := email } := by
  unfold loadUserData
  rw [hp]
  simp [truthy, hname, hemail, domText_str]

/-- The callback of the login timer on a state whose `user` key holds a text
that parses to an object with string fields `name` and `email`: the
dashboard becomes the only active view and shows them. -/
theorem fire_loginDone_shows (P : Platform) (fields : List (String × JVal))
    (name email : String) (x : State)
    (hp : parseStored P x.store.user = some (.obj fields))
    (hname : getProp (.obj fields) "name" = some (.str name))
    (hemail : getProp (.obj fields) "email" = some (.str email)) :
    (fire P .loginDone x).dashboardActive = true ∧
    (fire P .loginDone x).loginFormActive = false ∧
    (fire P .loginDone x).registerFormActive = false ∧
    (fire P .loginDone x).userName = name ∧
    (fire P .loginDone x).userEmail = email := by
  have hp1 : parseStored P (showDashboard x).store.user = some (.obj fields) := hp
  simp only [fire]
  rw [loadUserData_object P (showDashboard x) fields name email hp1 hname hemail]
  simp [settle, showDashboard]

/-- The state `handleLogin` reaches on a 2xx answer with a string
`access_token` when the store accepts both writes. -/
theorem handleLogin_success_eq (P : Platform) (e : LoginSubmission)
    (status : Nat) (body : JVal) (tok : String) (u : JVal) (s : State)
    (hst : statusOk status = true)
    (htok : getProp body "access_token" = some (.str tok))
    (huser : getProp body "user" = some u)
    (hw1 : P.accepts s.store .token tok = true)
    (hw2 : P.accepts { s.store with token := some tok } .user (stringifyForStore P u) = true) :
    handleLogin P e (.response status (some body)) s =
      { s with
        token := .str tok
        store := { token := some tok, user := some (stringifyForStore P u) }
        loginAlert :=
          { className := "alert success", textContent := "Inicio de sesión exitoso",
            shown := true }
        loginBtn := { disabled := false, btnText := "Iniciar Sesión" }
        requests := s.requests ++
          [{ url := apiUrl ++ "/auth/login", method := "POST",
             headers := [("Content-Type", "application/json")],
             body := some (P.stringify
               (.obj [("email", ofNullable e.email), ("password", ofNullable e.password)])) }]
        timers := s.timers ++ [{ due := s.now + 5000, action := .hideAlert .loginAlert },
                               { due := s.now + 1000, action := .loginDone }] } := by
  have ht : toStr (.str tok) = some tok := rfl
  simp [handleLogin, handleLoginTry, hst, htok, huser, ht, setItem, hw1, hw2, showAlert_str,
    setAlert, setTimeout, fetch, setLoading]

/-- The timer picked by `earliest` is one of the pending timers. -/
theorem earliest_mem : ∀ (l : List Timer) (tm : Timer), earliest l = some tm → tm ∈ l
  | [], tm, h => by simp [earliest] at h
  | x :: xs, tm, h => by
    unfold earliest at h
    cases he : earliest xs with
    | none =>
      simp [he] at h
      simp [h]
    | some y =>
      simp only [he] at h
      split_ifs at h
      · injection h with h
        subst h
        exact List.mem_cons_of_mem _ (earliest_mem xs y he)
      · injection h with h
        simp [h]

/-- No pending timer is due before the one picked by `earliest`. -/
theorem earliest_le : ∀ (l : List Timer) (tm : Timer), earliest l = some tm →
    ∀ x ∈ l, tm.due ≤ x.due
  | [], tm, h => by simp [earliest] at h
  | x :: xs, tm, h => by
    unfold earliest at h
    intro z hz
    cases he : earliest xs with
    | none =>
      simp only [he] at h
      injection h with h
      subst h
      rcases List.mem_cons.mp hz with hz | hz
      · subst hz; exact Nat.le_refl _
      · cases xs with
        | nil => simp at hz
        | cons a as =>
          unfold earliest at he
          cases h2 : earliest as <;> simp [h2] at he
          split_ifs at he
    | some y =>
      simp only [he] at h
      have ih := earliest_le xs y he
      split_ifs at h with hlt
      · injection h with h
        subst h
        rcases List.mem_cons.mp hz with hz | hz
        · subst hz; omega
        · exact ih z hz
      · injection h with h
        subst h
        rcases List.mem_cons.mp hz with hz | hz
        · subst hz; exact Nat.le_refl _
        · have := ih z hz
          omega

/-- Some timer is picked when one is pending. -/
theorem earliest_isSome (l : List Timer) (h : l ≠ []) : ∃ tm, earliest l = some tm := by
  cases l with
  | nil => exact absurd rfl h
  | cons x xs =>
    unfold earliest
    cases he : earliest xs with
    | none => exact ⟨x, rfl⟩
    | some y =>
      by_cases hlt : y.due < x.due
      · exact ⟨y, by simp [hlt]⟩
      · exact ⟨x, by simp [hlt]⟩

/-- When the timer picked among `rest ++ [b]` is none of `rest`, it is `b`
and every timer of `rest` is due later. -/
theorem earliest_last : ∀ (rest : List Timer) (b tm : Timer),
    earliest (rest ++ [b]) = some tm → tm ∉ rest → tm = b ∧ ∀ x ∈ rest, b.due < x.due
  | [], b, tm, h, _ => by
    simp [earliest] at h
    simp [h]
  | x :: xs, b, tm, h, hn => by
    have hx : tm ≠ x := fun hc => hn (by simp [hc])
    have hxs : tm ∉ xs := fun hc => hn (List.mem_cons_of_mem _ hc)
    simp only [List.cons_append] at h
    unfold earliest at h
    cases he : earliest (xs ++ [b]) with
    | none =>
      simp only [he] at h
      injection h with h
      exact absurd h.symm hx
    | some y =>
      simp only [he] at h
      split_ifs at h with hlt
      · injection h with h
        subst h
        obtain ⟨hb, hall⟩ := earliest_last xs b y he hxs
        subst hb
        refine ⟨rfl, ?_⟩
        intro z hz
        rcases List.mem_cons.mp hz with hz | hz
        · subst hz; exact hlt
        · exact hall z hz
      · injection h with h
        exact absurd h.symm hx

/-- The method `loadUserData` touches neither the views, nor the store, nor
the in-memory token, nor the timers, whether it throws or not. -/
theorem loadUserData_frame (P : Platform) (s : State) :
    (settle (loadUserData P s)).loginFormActive = s.loginFormActive ∧
    (settle (loadUserData P s)).registerFormActive = s.registerFormActive ∧
    (settle (loadUserData P s)).dashboardActive = s.dashboardActive ∧
    (settle (loadUserData P s)).store = s.store ∧
    (settle (loadUserData P s)).token = s.token ∧
    (settle (loadUserData P s)).timers = s.timers := by
  unfold loadUserData
  repeat' split
  all_goals simp [settle]

/-- A timer callback touches neither the store, nor the in-memory token, nor
the pending timers. -/
theorem fire_frame (P : Platform) (a : TimerAction) (s : State) :
    (fire P a s).store = s.store ∧ (fire P a s).token = s.token ∧
    (fire P a s).timers = s.timers := by
  cases a with
  | hideAlert id => cases id <;> simp [fire, setAlert]
  | loginDone =>
    have hf := loadUserData_frame P (showDashboard s)
    simp only [fire]
    rw [hf.2.2.2.1, hf.2.2.2.2.1, hf.2.2.2.2.2]
    simp [showDashboard]
  | registerDone => simp [fire, showForm, clearAlerts]

/-- Nothing fires when every pending timer is due after `t`. -/
theorem runDue_idle (P : Platform) (fuel t : Nat) (s : State)
    (h : ∀ x ∈ s.timers, t < x.due) : runDue P fuel t s = s := by
  cases fuel with
  | zero => rfl
  | succ n =>
    unfold runDue
    cases he : earliest s.timers with
    | none => rfl
    | some tm =>
      have := h tm (earliest_mem _ _ he)
      have hn : ¬ tm.due ≤ t := by omega
      simp [hn]

/-- A timer `b` set last and due at `t` is the last callback to run when the
clock reaches `t`: whatever else is pending, the run ends with the callback
of `b`, on a state with the store unchanged. -/
theorem runDue_fires_last (P : Platform) (b : Timer) (st : Storage) :
    ∀ (fuel : Nat) (rest : List Timer) (s : State),
      s.timers = rest ++ [b] → s.store = st → rest.length < fuel →
      ∃ x, x.store = st ∧ runDue P fuel b.due s = fire P b.action x := by
  intro fuel
  induction fuel with
  | zero => intro rest s _ _ hl; omega
  | succ n ih =>
    intro rest s ht hs hl
    obtain ⟨tm, he⟩ := earliest_isSome s.timers (by rw [ht]; simp)
    have hb : b ∈ s.timers := by rw [ht]; simp
    have hle : tm.due ≤ b.due := earliest_le _ _ he b hb
    unfold runDue
    simp only [he, hle, if_true]
    by_cases hin : tm ∈ rest
    · have hf := fire_frame P tm.action
        { s with timers := s.timers.erase tm, now := max s.now tm.due }
      refine ih (rest.erase tm) _ ?_ ?_ ?_
      · rw [hf.2.2]
        simp only [ht]
        exact List.erase_append_left _ hin
      · rw [hf.1]; exact hs
      · rw [List.length_erase_of_mem hin]
        have : 0 < rest.length := List.length_pos_of_mem hin
        omega
    · rw [ht] at he
      obtain ⟨hb2, hall⟩ := earliest_last rest b tm he hin
      subst hb2
      have herase : s.timers.erase tm = rest := by
        rw [ht, List.erase_append_right _ hin]
        simp
      refine ⟨{ s with timers := s.timers.erase tm, now := max s.now tm.due }, hs, ?_⟩
      apply runDue_idle
      intro x hx
      rw [(fire_frame P tm.action _).2.2] at hx
      simp only [herase] at hx
      exact hall x hx

/-- C5 fails as stated: in a browser whose store takes nothing more, a 2xx
login answer with a well-formed body persists nothing; the refused write
throws inside the `try`, the `catch` shows the connection-error alert, and
no transition to the dashboard is scheduled. -/
theorem handleLogin_2xx_store_full_persists_nothing :
    statusOk 200 = true ∧
    getProp demoLoginBody "access_token" = some (.str "tok-123") ∧
    (handleLogin demoFull demoLogin (.response 200 (some demoLoginBody)) demoState).store.token
      = none ∧
    (handleLogin demoFull demoLogin (.response 200 (some demoLoginBody)) demoState).store.user
      = none ∧
    (handleLogin demoFull demoLogin (.response 200 (some demoLoginBody)) demoState).timers =
      [{ due := 5000, action := .hideAlert .loginAlert }] ∧
    (handleLogin demoFull demoLogin (.response 200 (some demoLoginBody))
      demoState).loginAlert.textContent = "Error de conexión con el servidor" ∧
    ¬ ((handleLogin demoFull demoLogin (.response 200 (some demoLoginBody))
      demoState).store.token = some "tok-123") := by
  refine ⟨by decide, rfl, rfl, rfl, rfl, rfl, ?_⟩
  intro h
  have h0 : (handleLogin demoFull demoLogin (.response 200 (some demoLoginBody))
      demoState).store.token = none := rfl
  rw [h0] at h
  cases h

/-- C5, amended.  When the login request is answered with a status in
200..299 and a body whose `access_token` is the string `tok` and whose
`user` is an object with string fields `name` and `email`, and the store
accepts both writes, `handleLogin` persists `tok` under `token` and the JSON
text of `user` under `user`, sets the in-memory token to `tok`, and sets,
besides the alert timer, one timer due 1000 ms later.  When the callback of
that timer runs, and also when the clock reaches `s.now + 1000` whatever
other timers were pending, the dashboard is the only active view and the
displayed name and email are `user.name` and `user.email`.  (That
`JSON.parse` reads back what `JSON.stringify` wrote is a hypothesis about
the platform.) -/
theorem handleLogin_success_persists_and_shows_dashboard (P : Platform) (e : LoginSubmission)
    (status : Nat) (body : JVal) (tok : String) (fields : List (String × JVal))
    (name email : String) (s : State)
    (hst : statusOk status = true)
    (htok : getProp body "access_token" = some (.str tok))
    (huser : getProp body "user" = some (.obj fields))
    (hname : getProp (.obj fields) "name" = some (.str name))
    (hemail : getProp (.obj fields) "email" = some (.str email))
    (hrt : P.parse (P.stringify (.obj fields)) = some (.obj fields))
    (hw1 : P.accepts s.store .token tok = true)
    (hw2 : P.accepts { s.store with token := some tok } .user (P.stringify (.obj fields))
      = true) :
    (handleLogin P e (.response status (some body)) s).store.token = some tok ∧
    (handleLogin P e (.response status (some body)) s).store.user =
      some (P.stringify (.obj fields)) ∧
    (handleLogin P e (.response status (some body)) s).token = .str tok ∧
    (handleLogin P e (.response status (some body)) s).timers =
      s.timers ++ [{ due := s.now + 5000, action := .hideAlert .loginAlert },
                   { due := s.now + 1000, action := .loginDone }] ∧
    ((fire P .loginDone (handleLogin P e (.response status (some body)) s)).dashboardActive
      = true ∧
    (fire P .loginDone (handleLogin P e (.response status (some body)) s)).loginFormActive
      = false ∧
    (fire P .loginDone (handleLogin P e (.response status (some body)) s)).registerFormActive
      = false ∧
    (fire P .loginDone (handleLogin P e (.response status (some body)) s)).userName = name ∧
    (fire P .loginDone (handleLogin P e (.response status (some body)) s)).userEmail = email) ∧
    ((advanceTo P (s.now + 1000)
      (handleLogin P e (.response status (some body)) s)).dashboardActive = true ∧
    (advanceTo P (s.now + 1000)
      (handleLogin P e (.response status (some body)) s)).loginFormActive = false ∧
    (advanceTo P (s.now + 1000)
      (handleLogin P e (.response status (some body)) s)).registerFormActive = false ∧
    (advanceTo P (s.now + 1000)
      (handleLogin P e (.response status (some body)) s)).userName = name ∧
    (advanceTo P (s.now + 1000)
      (handleLogin P e (.response status (some body)) s)).userEmail = email) := by
  have heq := handleLogin_success_eq P e status body tok (.obj fields) s hst htok huser hw1 hw2
  have hsu : stringifyForStore P (.obj fields) = P.stringify (.obj fields) := rfl
  rw [hsu] at heq
  refine ⟨by rw [heq], by rw [heq], by rw [heq], by rw [heq], ?_, ?_⟩
  · apply fire_loginDone_shows P fields name email _ _ hname hemail
    rw [heq]
    exact hrt
  · obtain ⟨x, hx, hrun⟩ := runDue_fires_last P { due := s.now + 1000, action := .loginDone }
      { token := some tok, user := some (P.stringify (.obj fields)) }
      ((handleLogin P e (.response status (some body)) s).timers.length)
      (s.timers ++ [{ due := s.now + 5000, action := .hideAlert .loginAlert }])
      (handleLogin P e (.response status (some body)) s)
      (by rw [heq]; simp) (by rw [heq]) (by rw [heq]; simp)
    have hp : parseStored P x.store.user = some (.obj fields) := by
      rw [hx]
      exact hrt
    have hshow := fire_loginDone_shows P fields name email x hp hname hemail
    simp only [advanceTo]
    rw [hrun]
    exact hshow

/-- C5 amended, at an example: Ana logs in, in a browser with room left in
the store. -/
theorem handleLogin_success_persists_and_shows_dashboard_witness :
    statusOk 200 = true ∧
    getProp demoLoginBody "access_token" = some (.str "tok-123") ∧
    getProp demoLoginBody "user" =
      some (.obj [("name", .str "Ana"), ("email", .str "ana@example.com")]) ∧
    getProp (.obj [("name", .str "Ana"), ("email", .str "ana@example.com")]) "name" =
      some (.str "Ana") ∧
    getProp (.obj [("name", .str "Ana"), ("email", .str "ana@example.com")]) "email" =
      some (.str "ana@example.com") ∧
    demoJson.parse
        (demoJson.stringify (.obj [("name", .str "Ana"), ("email", .str "ana@example.com")])) =
      some (.obj [("name", .str "Ana"), ("email", .str "ana@example.com")]) ∧
    demoJson.accepts demoState.store .token "tok-123" = true ∧
    demoJson.accepts { demoState.store with token := some "tok-123" } .user
      (demoJson.stringify (.obj [("name", .str "Ana"), ("email", .str "ana@example.com")]))
      = true ∧
    ((handleLogin demoJson demoLogin (.response 200 (some demoLoginBody)) demoState).store.token
      = some "tok-123" ∧
    (handleLogin demoJson demoLogin (.response 200 (some demoLoginBody)) demoState).store.user =
      some (demoJson.stringify
        (.obj [("name", .str "Ana"), ("email", .str "ana@example.com")])) ∧
    (handleLogin demoJson demoLogin (.response 200 (some demoLoginBody)) demoState).token =
      .str "tok-123" ∧
    (handleLogin demoJson demoLogin (.response 200 (some demoLoginBody)) demoState).timers =
      demoState.timers ++ [{ due := demoState.now + 5000, action := .hideAlert .loginAlert },
                   { due := demoState.now + 1000, action := .loginDone }] ∧
    ((fire demoJson .loginDone
      (handleLogin demoJson demoLogin (.response 200 (some demoLoginBody)) demoState)).dashboardActive
      = true ∧
    (fire demoJson .loginDone
      (handleLogin demoJson demoLogin (.response 200 (some demoLoginBody)) demoState)).loginFormActive
      = false ∧
    (fire demoJson .loginDone
      (handleLogin demoJson demoLogin (.response 200 (some demoLoginBody)) demoState)).registerFormActive
      = false ∧
    (fire demoJson .loginDone
      (handleLogin demoJson demoLogin (.response 200 (some demoLoginBody)) demoState)).userName
      = "Ana" ∧
    (fire demoJson .loginDone
      (handleLogin demoJson demoLogin (.response 200 (some demoLoginBody)) demoState)).userEmail
      = "ana@example.com") ∧
    ((advanceTo demoJson (demoState.now + 1000)
      (handleLogin demoJson demoLogin (.response 200 (some demoLoginBody)) demoState)).dashboardActive
      = true ∧
    (advanceTo demoJson (demoState.now + 1000)
      (handleLogin demoJson demoLogin (.response 200 (some demoLoginBody)) demoState)).loginFormActive
      = false ∧
    (advanceTo demoJson (demoState.now + 1000)
      (handleLogin demoJson demoLogin (.response 200 (some demoLoginBody)) demoState)).registerFormActive
      = false ∧
    (advanceTo demoJson (demoState.now + 1000)
      (handleLogin demoJson demoLogin (.response 200 (some demoLoginBody)) demoState)).userName
      = "Ana" ∧
    (advanceTo demoJson (demoState.now + 1000)
      (handleLogin demoJson demoLogin (.response 200 (some demoLoginBody)) demoState)).userEmail
      = "ana@example.com")) :=
  ⟨by decide, rfl, rfl, rfl, rfl, rfl, rfl, rfl,
    handleLogin_success_persists_and_shows_dashboard demoJson demoLogin 200 demoLoginBody
      "tok-123" [("name", .str "Ana"), ("email", .str "ana@example.com")] "Ana"
      "ana@example.com" demoState (by decide) rfl rfl rfl rfl rfl rfl rfl⟩

/-- C6 fails as stated: with the `user` key holding the text `undefined`,
which `JSON.parse` rejects, a 2xx answer to `/auth/me` does not end on the
dashboard with the session kept; `loadUserData` throws inside the `try` of
`verifyToken` and the `catch` logs out. -/
theorem verifyToken_2xx_unparsable_user_logs_out :
    answered2xx (.response 200 none) = true ∧
    demoCorrupt.store.token = some "tok-123" ∧
    demoCorrupt.store.user = some "undefined" ∧
    (verifyToken demoJson (.response 200 none) demoCorrupt).dashboardActive = false ∧
    (verifyToken demoJson (.response 200 none) demoCorrupt).loginFormActive = true ∧
    (verifyToken demoJson (.response 200 none) demoCorrupt).store.token = none ∧
    (verifyToken demoJson (.response 200 none) demoCorrupt).store.user = none ∧
    ¬ ((verifyToken demoJson (.response 200 none) demoCorrupt).dashboardActive = true ∧
       (verifyToken demoJson (.response 200 none) demoCorrupt).store = demoCorrupt.store) := by
  refine ⟨by decide, rfl, rfl, rfl, rfl, rfl, rfl, ?_⟩
  intro h
  exact absurd h.1 (by decide)

/-- The same happens with a `user` key that parses: when `user.name` is an
object with an own `toString`, the assignment to `textContent` throws inside
the `try` of `verifyToken` and the `catch` logs out. -/
theorem verifyToken_2xx_unrenderable_name_logs_out :
    answered2xx (.response 200 none) = true ∧
    parseStored demoJson demoOdd.store.user = some demoOddUser ∧
    (verifyToken demoJson (.response 200 none) demoOdd).dashboardActive = false ∧
    (verifyToken demoJson (.response 200 none) demoOdd).loginFormActive = true ∧
    (verifyToken demoJson (.response 200 none) demoOdd).store.token = none ∧
    (verifyToken demoJson (.response 200 none) demoOdd).store.user = none := by
  refine ⟨by decide, rfl, rfl, rfl, rfl, rfl⟩

/-- The method `loadUserData` in closed form, once `JSON.parse` has accepted
the stored text and `name` and `email` convert to the texts `nt` and `et`:
it does not throw. -/
theorem loadUserData_of_parsed (P : Platform) (s : State) (u : JVal) (nt et : String)
    (hp : parseStored P s.store.user = some u)
    (hn : domText ((getProp u "name").getD .undefined) = some nt)
    (he : domText ((getProp u "email").getD .undefined) = some et) :
    loadUserData P s = .ok
      (if truthy u then { s with userName := nt, userEmail := et } else s) := by
  unfold loadUserData
  rw [hp]
  cases u with
  | obj fields =>
    cases hln : fields.lookup "name" <;> cases hle : fields.lookup "email" <;>
      simp only [getProp, hln, hle, Option.getD_some, domText_undefined, Option.some.injEq]
        at hn he <;>
      (try subst hn) <;> (try subst he) <;>
      simp [truthy, getProp, hln, hle, domText_undefined, *]
  | bool b =>
    simp only [getProp, Option.getD_some, domText_undefined, Option.some.injEq] at hn he
    subst hn; subst he
    cases b <;> simp [truthy, getProp, domText_undefined]
  | num n =>
    simp only [getProp, Option.getD_some, domText_undefined, Option.some.injEq] at hn he
    subst hn; subst he
    cases hf : n.falsy <;> simp [truthy, getProp, domText_undefined, hf]
  | str x =>
    simp only [getProp, Option.getD_some, domText_undefined, Option.some.injEq] at hn he
    subst hn; subst he
    by_cases hx : x = "" <;> simp [truthy, getProp, domText_undefined, hx]
  | arr xs =>
    simp only [getProp, Option.getD_some, domText_undefined, Option.some.injEq] at hn he
    subst hn; subst he
    simp [truthy, getProp, domText_undefined]
  | undefined => simp [truthy]
  | null => simp [truthy]

/-- C6, amended.  When the `/auth/me` request is answered with a status in
200..299, the in-memory token converts to text (every string does), the
`user` key is absent or holds a text `JSON.parse` accepts (`u` is what it
parses to; an absent key is read as the text `null`), and the `name` and
`email` of `u` convert to text, `verifyToken` ends with the dashboard the
only active view and the persisted token and user unchanged; and when `u`
is an object whose `name` and `email` are strings, these are the displayed
name and email. -/
theorem verifyToken_success_shows_dashboard (P : Platform) (o : FetchOutcome) (s : State)
    (u : JVal) (h : answered2xx o = true)
    (htok : (toStr s.token).isSome = true)
    (hp : parseStored P s.store.user = some u)
    (hn : (domText ((getProp u "name").getD .undefined)).isSome = true)
    (he : (domText ((getProp u "email").getD .undefined)).isSome = true) :
    (verifyToken P o s).dashboardActive = true ∧
    (verifyToken P o s).loginFormActive = false ∧
    (verifyToken P o s).registerFormActive = false ∧
    (verifyToken P o s).store = s.store ∧
    (∀ (fields : List (String × JVal)) (name email : String),
      u = .obj fields → fields.lookup "name" = some (.str name) →
      fields.lookup "email" = some (.str email) →
      (verifyToken P o s).userName = name ∧ (verifyToken P o s).userEmail = email) := by
  obtain ⟨tokText, htt⟩ := Option.isSome_iff_exists.mp htok
  obtain ⟨nt, hnt⟩ := Option.isSome_iff_exists.mp hn
  obtain ⟨et, het⟩ := Option.isSome_iff_exists.mp he
  cases o with
  | throws => simp [answered2xx] at h
  | response status body =>
    have hs : statusOk status = true := h
    have hp1 : parseStored P (showDashboard (fetch
        { url := apiUrl ++ "/auth/me", method := "GET",
          headers := [("Authorization", "Bearer " ++ tokText)],
          body := none } s)).store.user = some u := hp
    have hv : verifyToken P (.response status body) s =
        (if truthy u then
          { showDashboard (fetch
              { url := apiUrl ++ "/auth/me", method := "GET",
                headers := [("Authorization", "Bearer " ++ tokText)],
                body := none } s) with userName := nt, userEmail := et }
         else showDashboard (fetch
              { url := apiUrl ++ "/auth/me", method := "GET",
                headers := [("Authorization", "Bearer " ++ tokText)],
                body := none } s)) := by
      simp only [verifyToken, htt, hs, if_true, loadUserData_of_parsed P _ u nt et hp1 hnt het]
    rw [hv]
    refine ⟨?_, ?_, ?_, ?_, ?_⟩
    · split_ifs <;> simp [showDashboard, fetch]
    · split_ifs <;> simp [showDashboard, fetch]
    · split_ifs <;> simp [showDashboard, fetch]
    · split_ifs <;> simp [showDashboard, fetch]
    · intro fields name email hu hln hle
      subst hu
      simp [getProp, hln, domText_str] at hnt
      simp [getProp, hle, domText_str] at het
      simp [truthy, hnt, het]

/-- C6 amended, at an example: Ana comes back with a valid session and sees
her name and email. -/
theorem verifyToken_success_shows_dashboard_witness :
    answered2xx (.response 200 none) = true ∧
    (toStr demoReturning.token).isSome = true ∧
    parseStored demoJson demoReturning.store.user = some demoUser ∧
    (domText ((getProp demoUser "name").getD .undefined)).isSome = true ∧
    (domText ((getProp demoUser "email").getD .undefined)).isSome = true ∧
    ((verifyToken demoJson (.response 200 none) demoReturning).dashboardActive = true ∧
    (verifyToken demoJson (.response 200 none) demoReturning).loginFormActive = false ∧
    (verifyToken demoJson (.response 200 none) demoReturning).registerFormActive = false ∧
    (verifyToken demoJson (.response 200 none) demoReturning).store = demoReturning.store ∧
    (verifyToken demoJson (.response 200 none) demoReturning).userName = "Ana" ∧
    (verifyToken demoJson (.response 200 none) demoReturning).userEmail = "ana@example.com") :=
  have hw := verifyToken_success_shows_dashboard demoJson (.response 200 none)
    demoReturning demoUser (by decide) rfl rfl rfl rfl
  ⟨by decide, rfl, rfl, rfl, rfl, hw.1, hw.2.1, hw.2.2.1, hw.2.2.2.1,
    (hw.2.2.2.2 [("name", .str "Ana"), ("email", .str "ana@example.com")] "Ana"
      "ana@example.com" rfl rfl rfl).1,
    (hw.2.2.2.2 [("name", .str "Ana"), ("email", .str "ana@example.com")] "Ana"
      "ana@example.com" rfl rfl rfl).2⟩

/-- The method `showAlert` touches neither the store, nor the in-memory
token, nor a view, whether it throws or not. -/
theorem showAlert_settle (id : AlertId) (m : JVal) (ty : String) (s : State) :
    (settle (showAlert id m ty s)).store = s.store ∧
    (settle (showAlert id m ty s)).token = s.token ∧
    (settle (showAlert id m ty s)).loginFormActive = s.loginFormActive ∧
    (settle (showAlert id m ty s)).registerFormActive = s.registerFormActive ∧
    (settle (showAlert id m ty s)).dashboardActive = s.dashboardActive := by
  cases h : showAlert id m ty s with
  | ok s1 =>
    have hk := showAlert_ok id m ty s s1 h
    exact ⟨hk.1, hk.2.1, hk.2.2.1, hk.2.2.2.1, hk.2.2.2.2.1⟩
  | error s1 =>
    have hk := showAlert_error id m ty s s1 h
    exact ⟨hk.1, hk.2.1, hk.2.2.1, hk.2.2.2.1, hk.2.2.2.2.1⟩

/-- The `catch` and `finally` blocks of `handleLogin` touch neither the
store, nor the in-memory token, nor a view: in these respects the handler
ends where its `try` block ended. -/
theorem handleLogin_settle (P : Platform) (e : LoginSubmission) (o : FetchOutcome)
    (s : State) :
    (handleLogin P e o s).store = (settle (handleLoginTry P e o s)).store ∧
    (handleLogin P e o s).token = (settle (handleLoginTry P e o s)).token ∧
    (handleLogin P e o s).loginFormActive =
      (settle (handleLoginTry P e o s)).loginFormActive ∧
    (handleLogin P e o s).registerFormActive =
      (settle (handleLoginTry P e o s)).registerFormActive ∧
    (handleLogin P e o s).dashboardActive =
      (settle (handleLoginTry P e o s)).dashboardActive := by
  unfold handleLogin
  cases handleLoginTry P e o s with
  | ok s2 => simp [settle]
  | error s2 => simp [settle, showAlert_str, setAlert, setTimeout]

/-- The `catch` and `finally` blocks of `handleRegister` touch neither the
store, nor the in-memory token, nor a view. -/
theorem handleRegister_settle (P : Platform) (e : RegisterSubmission) (o : FetchOutcome)
    (s : State) :
    (handleRegister P e o s).store = (settle (handleRegisterTry P e o s)).store ∧
    (handleRegister P e o s).token = (settle (handleRegisterTry P e o s)).token ∧
    (handleRegister P e o s).loginFormActive =
      (settle (handleRegisterTry P e o s)).loginFormActive ∧
    (handleRegister P e o s).registerFormActive =
      (settle (handleRegisterTry P e o s)).registerFormActive ∧
    (handleRegister P e o s).dashboardActive =
      (settle (handleRegisterTry P e o s)).dashboardActive := by
  unfold handleRegister
  cases handleRegisterTry P e o s with
  | ok s2 => simp [settle]
  | error s2 => simp [settle, showAlert_str, setAlert, setTimeout]

/-- The `try` block of `handleLogin` touches no view. -/
theorem handleLoginTry_views (P : Platform) (e : LoginSubmission) (o : FetchOutcome)
    (s : State) :
    (settle (handleLoginTry P e o s)).loginFormActive = s.loginFormActive ∧
    (settle (handleLoginTry P e o s)).registerFormActive = s.registerFormActive ∧
    (settle (handleLoginTry P e o s)).dashboardActive = s.dashboardActive := by
  cases o with
  | throws => simp [handleLoginTry, settle, fetch]
  | response status body =>
    cases body with
    | none => simp [handleLoginTry, settle, fetch]
    | some result =>
      cases hs : statusOk status with
      | false =>
        cases hd : getProp result "detail" with
        | none => simp [handleLoginTry, hs, hd, settle, fetch]
        | some d =>
          simp only [handleLoginTry, hs, hd, Bool.false_eq_true, if_false]
          have hk := showAlert_settle .loginAlert
            (if truthy d then d else .str "Error al iniciar sesión") "error"
            (fetch
              { url := apiUrl ++ "/auth/login", method := "POST",
                headers := [("Content-Type", "application/json")],
                body := some (P.stringify
                  (.obj [("email", ofNullable e.email), ("password", ofNullable e.password)])) }
              { s with loginBtn := setLoading "loginBtn" s.loginBtn true })
          exact ⟨hk.2.2.1, hk.2.2.2.1, hk.2.2.2.2⟩
      | true =>
        simp only [handleLoginTry, hs, if_true, showAlert_str]
        repeat' split
        all_goals simp [settle, fetch, setAlert, setTimeout]

/-- The `try` block of `handleRegister` touches neither the store, nor the
in-memory token, nor a view. -/
theorem handleRegisterTry_frame (P : Platform) (e : RegisterSubmission) (o : FetchOutcome)
    (s : State) :
    (settle (handleRegisterTry P e o s)).store = s.store ∧
    (settle (handleRegisterTry P e o s)).token = s.token ∧
    (settle (handleRegisterTry P e o s)).loginFormActive = s.loginFormActive ∧
    (settle (handleRegisterTry P e o s)).registerFormActive = s.registerFormActive ∧
    (settle (handleRegisterTry P e o s)).dashboardActive = s.dashboardActive := by
  by_cases hpw : e.password = e.confirmPassword
  · cases o with
    | throws => simp [handleRegisterTry, hpw, settle, fetch]
    | response status body =>
      cases body with
      | none => simp [handleRegisterTry, hpw, settle, fetch]
      | some result =>
        cases hs : statusOk status with
        | true =>
          simp [handleRegisterTry, hpw, hs, showAlert_str, settle, fetch, setAlert, setTimeout]
        | false =>
          cases hd : getProp result "detail" with
          | none => simp [handleRegisterTry, hpw, hs, hd, settle, fetch]
          | some d =>
            simp only [handleRegisterTry, hpw, hs, hd, Bool.false_eq_true, if_false, ne_eq,
              not_true_eq_false]
            exact ⟨(showAlert_settle _ _ _ _).1, (showAlert_settle _ _ _ _).2.1,
              (showAlert_settle _ _ _ _).2.2.1, (showAlert_settle _ _ _ _).2.2.2.1,
              (showAlert_settle _ _ _ _).2.2.2.2⟩
  · simp [handleRegisterTry, hpw, showAlert_str, settle, setAlert, setTimeout]

/-- The method `handleLogin` itself touches no view. -/
theorem handleLogin_views (P : Platform) (e : LoginSubmission) (o : FetchOutcome) (s : State) :
    activeCount (handleLogin P e o s) = activeCount s := by
  have h1 := handleLogin_settle P e o s
  have h2 := handleLoginTry_views P e o s
  unfold activeCount
  rw [h1.2.2.1, h1.2.2.2.1, h1.2.2.2.2, h2.1, h2.2.1, h2.2.2]

/-- The method `handleRegister` itself touches no view. -/
theorem handleRegister_views (P : Platform) (e : RegisterSubmission) (o : FetchOutcome)
    (s : State) : activeCount (handleRegister P e o s) = activeCount s := by
  have h1 := handleRegister_settle P e o s
  have h2 := handleRegisterTry_frame P e o s
  unfold activeCount
  rw [h1.2.2.1, h1.2.2.2.1, h1.2.2.2.2, h2.2.2.1, h2.2.2.2.1, h2.2.2.2.2]

/-- After `verifyToken` exactly one view is active. -/
theorem verifyToken_views (P : Platform) (o : FetchOutcome) (s : State) :
    activeCount (verifyToken P o s) = 1 := by
  have hout : ∀ x : State, activeCount (handleLogout x) = 1 := by
    intro x
    simp [activeCount, handleLogout, showForm, clearAlerts]
  cases ht : toStr s.token with
  | none => simpa [verifyToken, ht] using hout s
  | some tokText =>
    cases o with
    | throws => simpa [verifyToken, ht] using hout _
    | response status body =>
      cases hs : statusOk status with
      | false => simpa [verifyToken, ht, hs] using hout _
      | true =>
        simp only [verifyToken, ht, hs, if_true]
        split
        · rename_i s3 h3
          have hf := loadUserData_frame P (showDashboard (fetch
            { url := apiUrl ++ "/auth/me", method := "GET",
              headers := [("Authorization", "Bearer " ++ tokText)],
              body := none } s))
          rw [h3] at hf
          simp only [settle] at hf
          simp [activeCount, hf.1, hf.2.1, hf.2.2.1, showDashboard, fetch]
        · exact hout _

/-- After a timer callback exactly one view is active if it was so before. -/
theorem fire_views (P : Platform) (a : TimerAction) (s : State) (h : activeCount s = 1) :
    activeCount (fire P a s) = 1 := by
  cases a with
  | hideAlert id => cases id <;> simpa [fire, setAlert, activeCount] using h
  | loginDone =>
    have hf := loadUserData_frame P (showDashboard s)
    simp only [fire, activeCount]
    rw [hf.1, hf.2.1, hf.2.2.1]
    simp [showDashboard]
  | registerDone => simp [fire, activeCount, showForm, clearAlerts]

/-- C8 fails as stated: `showForm` with an argument other than `login` and
`register` takes a state with exactly one active view to a state with
none. -/
theorem showForm_unknown_leaves_no_view :
    activeCount demoState = 1 ∧ activeCount (showForm "dashboard" demoState) = 0 := by
  constructor <;> rfl

/-- C8, amended.  From a state with exactly one active view, every
operation of the controller (`showForm` with argument `login` or `register`,
`showDashboard`, `handleLogin`, `handleRegister`, `handleLogout`,
`verifyToken`, the constructor, and every timer callback) ends with exactly
one active view. -/
theorem step_keeps_one_view_active (P : Platform) (op : Op) (s : State)
    (h : activeCount s = 1) (hop : knownForm op) : activeCount (step P op s) = 1 := by
  cases op with
  | construct o =>
    simp only [step, construct, init, checkAuth]
    split
    · exact verifyToken_views P o _
    · simpa [activeCount] using h
  | showForm formType =>
    rcases hop with hf | hf <;> subst hf <;> simp [step, showForm, clearAlerts, activeCount]
  | showDashboard => simp [step, showDashboard, activeCount]
  | handleLogin e o => simpa [step, handleLogin_views] using h
  | handleRegister e o => simpa [step, handleRegister_views] using h
  | handleLogout => simp [step, handleLogout, showForm, clearAlerts, activeCount]
  | verifyToken o => exact verifyToken_views P o s
  | timer a => exact fire_views P a s h

/-- C8 amended, at an example: the visitor clicks "register". -/
theorem step_keeps_one_view_active_witness :
    activeCount demoState = 1 ∧ knownForm (.showForm "register") ∧
    activeCount (step demoJson (.showForm "register") demoState) = 1 :=
  ⟨rfl, Or.inr rfl, step_keeps_one_view_active demoJson (.showForm "register") demoState rfl
    (Or.inr rfl)⟩

/-- C9, the code at the failing input.  The alert of the second rejection is
shown at 3000 ms and should stay until 8000 ms; the timer left over from the
first alert hides it at 5000 ms. -/
theorem second_alert_hidden_by_first_timer :
    demoTwoRejections.now = 3000 ∧
    demoTwoRejections.loginAlert.shown = true ∧
    demoTwoRejections.loginAlert.textContent = "Credenciales incorrectas" ∧
    demoTwoRejections.timers =
      [{ due := 5000, action := .hideAlert .loginAlert },
       { due := 8000, action := .hideAlert .loginAlert }] ∧
    (advanceTo demoJson 4999 demoTwoRejections).loginAlert.shown = true ∧
    (advanceTo demoJson 5000 demoTwoRejections).loginAlert.shown = false ∧
    (advanceTo demoJson 7999 demoTwoRejections).loginAlert.shown = false := by
  refine ⟨rfl, rfl, rfl, rfl, rfl, rfl, rfl⟩

/-- With no other timer pending, an alert shown at time `s.now` is visible
at every instant before `s.now + 5000` and hidden from then on. -/
theorem showAlert_alone_lasts_5000 (P : Platform) (id : AlertId) (m ty : String)
    (s : State) (t : Nat) (hs : s.timers = []) :
    (getAlert (advanceTo P t (settle (showAlert id (.str m) ty s))) id).shown =
      decide (t < s.now + 5000) := by
  rw [showAlert_str]
  by_cases ht : t < s.now + 5000
  · have h2 : ¬ (s.now + 5000 ≤ t) := by omega
    cases id <;>
      simp [advanceTo, settle, setAlert, setTimeout, hs, runDue, earliest, getAlert, ht, h2]
  · have h2 : s.now + 5000 ≤ t := by omega
    cases id <;>
      simp [advanceTo, settle, setAlert, setTimeout, hs, runDue, earliest, getAlert, ht, h2,
        fire]

/-- An accepted write under `token` leaves the written text there. -/
theorem setItem_token (P : Platform) (v : String) (st st1 : Storage)
    (h : setItem P .token v st = some st1) : st1.token = some v := by
  unfold setItem at h
  split_ifs at h
  simp only [Option.some.injEq] at h
  subst h
  rfl

/-- An accepted write under `user` leaves the `token` key alone. -/
theorem setItem_user (P : Platform) (v : String) (st st1 : Storage)
    (h : setItem P .user v st = some st1) : st1.token = st.token := by
  unfold setItem at h
  split_ifs at h
  simp only [Option.some.injEq] at h
  subst h
  rfl

/-- C10 fails as stated: a 2xx login answer whose body has no `access_token`
leaves the text `undefined` under the key `token` while the in-memory token
is `undefined`, that is, absent. -/
theorem handleLogin_missing_token_disagrees :
    sessionAgrees demoState ∧
    (handleLogin demoJson demoLogin (.response 200 (some (.obj []))) demoState).store.token =
      some "undefined" ∧
    isNullish (handleLogin demoJson demoLogin (.response 200 (some (.obj []))) demoState).token =
      true ∧
    ¬ sessionAgrees (handleLogin demoJson demoLogin (.response 200 (some (.obj []))) demoState) := by
  refine ⟨trivial, rfl, rfl, ?_⟩
  intro h
  exact h

/-- The two copies of the token also part when the store accepts the write
of `token` and refuses the write of `user`: the `token` key is written, the
throw skips the assignment to `this.token`. -/
theorem handleLogin_user_write_refused_disagrees :
    sessionAgrees demoState ∧
    (handleLogin demoTight demoLogin (.response 200 (some demoLoginBody)) demoState).store.token =
      some "tok-123" ∧
    (handleLogin demoTight demoLogin (.response 200 (some demoLoginBody)) demoState).store.user =
      none ∧
    isNullish (handleLogin demoTight demoLogin (.response 200 (some demoLoginBody))
      demoState).token = true ∧
    ¬ sessionAgrees
      (handleLogin demoTight demoLogin (.response 200 (some demoLoginBody)) demoState) := by
  refine ⟨trivial, rfl, rfl, rfl, ?_⟩
  intro h
  exact h

/-- States with the same `token` key and the same in-memory token agree
alike. -/
theorem sessionAgrees_congr (s s1 : State) (hs : s1.store.token = s.store.token)
    (ht : s1.token = s.token) (h : sessionAgrees s) : sessionAgrees s1 := by
  unfold sessionAgrees at *
  rw [hs, ht]
  exact h

/-- After the `try` block of `handleLogin` the in-memory token and the store
agree if they did before, for the logins of `tokenKept`. -/
theorem handleLoginTry_agrees (P : Platform) (e : LoginSubmission) (o : FetchOutcome)
    (s : State) (h : sessionAgrees s) (hop : tokenKept P s (.handleLogin e o)) :
    sessionAgrees (settle (handleLoginTry P e o s)) := by
  cases o with
  | throws => exact sessionAgrees_congr s _ rfl rfl h
  | response status body =>
    cases body with
    | none => exact sessionAgrees_congr s _ rfl rfl h
    | some result =>
      cases hs : statusOk status with
      | false =>
        cases hd : getProp result "detail" with
        | none =>
          refine sessionAgrees_congr s _ ?_ ?_ h <;>
            simp [handleLoginTry, hs, hd, settle, fetch]
        | some d =>
          refine sessionAgrees_congr s _ ?_ ?_ h
          · simp only [handleLoginTry, hs, hd, Bool.false_eq_true, if_false]
            rw [(showAlert_settle _ _ _ _).1]
            rfl
          · simp only [handleLoginTry, hs, hd, Bool.false_eq_true, if_false]
            rw [(showAlert_settle _ _ _ _).2.1]
            rfl
      | true =>
        have hop1 := hop hs
        cases ha : getProp result "access_token" with
        | none =>
          refine sessionAgrees_congr s _ ?_ ?_ h <;>
            simp [handleLoginTry, hs, ha, settle, fetch]
        | some v =>
          cases ht : toStr v with
          | none =>
            refine sessionAgrees_congr s _ ?_ ?_ h <;>
              simp [handleLoginTry, hs, ha, ht, settle, fetch]
          | some tokText =>
            cases h1 : setItem P .token tokText s.store with
            | none =>
              refine sessionAgrees_congr s _ ?_ ?_ h <;>
                simp [handleLoginTry, hs, ha, ht, h1, settle, fetch]
            | some st3 =>
              obtain ⟨hv, hu⟩ := hop1 v tokText st3 ha ht h1
              subst hv
              cases hgu : getProp result "user" with
              | none =>
                cases result <;> simp [getProp] at ha hgu
                rename_i fields
                cases hl : fields.lookup "user" <;> simp [hl] at hgu
              | some u =>
                have hacc := hu u hgu
                cases h2 : setItem P .user (stringifyForStore P u) st3 with
                | none => simp [h2] at hacc
                | some st4 =>
                  have h4 : st4.token = some tokText := by
                    rw [setItem_user P _ st3 st4 h2]
                    exact setItem_token P _ _ st3 h1
                  simp only [handleLoginTry, fetch, hs, ha, ht, h1, hgu, h2, if_true, showAlert_str,
                    settle]
                  unfold sessionAgrees
                  simp [setTimeout, setAlert, h4]

/-- A timer callback touches neither the store nor the in-memory token. -/
theorem fire_keeps_session (P : Platform) (a : TimerAction) (s : State) :
    (fire P a s).store = s.store ∧ (fire P a s).token = s.token :=
  ⟨(fire_frame P a s).1, (fire_frame P a s).2.1⟩

/-- After `verifyToken` the in-memory token and the store agree. -/
theorem verifyToken_agrees (P : Platform) (o : FetchOutcome) (s : State)
    (h : sessionAgrees s) : sessionAgrees (verifyToken P o s) := by
  have hout : ∀ x : State, sessionAgrees (handleLogout x) := by
    intro x
    simp [sessionAgrees, handleLogout, removeItem, showForm, clearAlerts]
  cases ht : toStr s.token with
  | none => simpa [verifyToken, ht] using hout s
  | some tokText =>
    cases o with
    | throws => simpa [verifyToken, ht] using hout _
    | response status body =>
      cases hs : statusOk status with
      | false => simpa [verifyToken, ht, hs] using hout _
      | true =>
        simp only [verifyToken, ht, hs, if_true]
        split
        · rename_i s3 h3
          have hf := loadUserData_frame P (showDashboard (fetch
            { url := apiUrl ++ "/auth/me", method := "GET",
              headers := [("Authorization", "Bearer " ++ tokText)],
              body := none } s))
          rw [h3] at hf
          simp only [settle] at hf
          refine sessionAgrees_congr s s3 ?_ ?_ h
          · rw [hf.2.2.2.1]; rfl
          · rw [hf.2.2.2.2.1]; rfl
        · exact hout _

/-- C10, amended.  After construction, and after every operation started
from a state in which they agree, the in-memory token agrees with the
persisted `token` key (absent together, or the same string), for every
server answer other than a 2xx login whose `access_token` the store accepts
and either is not a string or is followed by a refused write of `user`. -/
theorem session_token_agrees (P : Platform) (o : FetchOutcome) (s0 : State) (op : Op)
    (s : State) (h : sessionAgrees s) (hop : tokenKept P s op) :
    sessionAgrees (construct P o s0) ∧ sessionAgrees (step P op s) := by
  have hc : ∀ (o1 : FetchOutcome) (s1 : State), sessionAgrees (construct P o1 s1) := by
    intro o1 s1
    have h1 : sessionAgrees { s1 with token := ofNullable s1.store.token } := by
      unfold sessionAgrees
      cases hk : s1.store.token <;> simp [hk, ofNullable]
    simp only [construct, init, checkAuth]
    split
    · exact verifyToken_agrees P o1 _ h1
    · exact h1
  refine ⟨hc o s0, ?_⟩
  cases op with
  | construct o1 => exact hc o1 s
  | showForm formType =>
    refine sessionAgrees_congr s _ ?_ ?_ h <;>
      (simp only [step, showForm]; split_ifs <;> simp [clearAlerts])
  | showDashboard => exact h
  | handleLogin e o1 =>
    have hk := handleLogin_settle P e o1 s
    refine sessionAgrees_congr _ _ ?_ hk.2.1 (handleLoginTry_agrees P e o1 s h hop)
    simp only [step]
    rw [hk.1]
  | handleRegister e o1 =>
    have hk := handleRegister_settle P e o1 s
    have hf := handleRegisterTry_frame P e o1 s
    refine sessionAgrees_congr s _ ?_ ?_ h
    · simp only [step]
      rw [hk.1, hf.1]
    · simp only [step]
      rw [hk.2.1, hf.2.1]
  | handleLogout =>
    simp [step, sessionAgrees, handleLogout, removeItem, showForm, clearAlerts]
  | verifyToken o1 => exact verifyToken_agrees P o1 s h
  | timer a =>
    have hk := fire_keeps_session P a s
    refine sessionAgrees_congr s _ ?_ hk.2 h
    simp only [step]
    rw [hk.1]

/-- Ana's login is one of the logins of `tokenKept`: the token is a string
and the store has room for the user record. -/
theorem demoLogin_tokenKept :
    tokenKept demoJson demoState
      (.handleLogin demoLogin (.response 200 (some demoLoginBody))) := by
  intro _ v tokText st ha ht h1
  have hv : v = JVal.str "tok-123" := (Option.some.inj ha).symm
  subst hv
  have htt : tokText = "tok-123" := (Option.some.inj ht).symm
  subst htt
  have hst : st = { token := some "tok-123", user := none } := (Option.some.inj h1).symm
  subst hst
  refine ⟨rfl, ?_⟩
  intro u hu
  have hu1 : u = demoUser := (Option.some.inj hu).symm
  subst hu1
  rfl

/-- C10 amended, at an example: Ana loads the page and logs in. -/
theorem session_token_agrees_witness :
    sessionAgrees demoState ∧
    tokenKept demoJson demoState
      (.handleLogin demoLogin (.response 200 (some demoLoginBody))) ∧
    (sessionAgrees (construct demoJson (.response 200 none) demoReturning) ∧
     sessionAgrees
      (step demoJson (.handleLogin demoLogin (.response 200 (some demoLoginBody))) demoState)) :=
  ⟨trivial, demoLogin_tokenKept,
    session_token_agrees demoJson (.response 200 none) demoReturning
      (.handleLogin demoLogin (.response 200 (some demoLoginBody))) demoState trivial
      demoLogin_tokenKept⟩

end AuthApp
